import Mathlib

/-!
Shallow embedding of hf_downloader.py (a multithreaded dataset downloader CLI)
and proofs about its filter stage, download worker and coordinator loop.

Python strings are modelled by Lean String; the Python str operations used by
the source (split, strip, lower, startswith, endswith) are given structural
definitions over the underlying character list so they compute in the kernel.
-/

/-- Python s.split(sep) for a one-character separator, auxiliary loop. -/
def splitCharAux (sep : Char) : List Char → List Char → List (List Char)
  | [], cur => [cur.reverse]
  | c :: cs, cur =>
    if c = sep then cur.reverse :: splitCharAux sep cs []
    else splitCharAux sep cs (c :: cur)

/-- Python s.split(sep) for a one-character separator. -/
def splitChar (sep : Char) (s : String) : List String :=
  (splitCharAux sep s.data []).map String.mk

/-- Python s.lower() (ASCII case folding, as used on file extensions). -/
def lowerStr (s : String) : String :=
  String.mk (s.data.map Char.toLower)

/-- Python s.strip(): drop leading and trailing whitespace. -/
def stripStr (s : String) : String :=
  String.mk (((s.data.dropWhile Char.isWhitespace).reverse.dropWhile Char.isWhitespace).reverse)

/-- Python s.endswith(suffix). -/
def endsWithStr (s suf : String) : Bool :=
  suf.data.isSuffixOf s.data

/-- Python s.startswith(p). -/
def strStartsWith (s p : String) : Bool :=
  p.data.isPrefixOf s.data

/-- A manifest entry: the dict with keys rfilename and url built by
list_dataset_files. -/
structure FileInfo where
  rfilename : String
  url : String
deriving DecidableEq

/-- One normalized extension: ext.strip().lower(), then a leading dot is added
when missing (line 121 of the source). -/
def normalizeExt (ext : String) : String :=
  let e := lowerStr (stripStr ext)
  if strStartsWith e "." then e else "." ++ e

/-- The ext_list computed from the comma-separated --filter argument
(lines 120-121 of the source). -/
def parseExtList (extensions : String) : List String :=
  (splitChar ',' extensions).map normalizeExt

/-- Python files[:limit] slice semantics, including negative limits. -/
def pySliceTo (xs : List FileInfo) (l : Int) : List FileInfo :=
  if l < 0 then xs.take (xs.length - (-l).toNat)
  else xs.take l.toNat

/-- The list filter_files (lines 117-127) is written to compute: extensions
is the raw comma-separated string or None; limit is an Optional int; both
guards use Python truthiness (an empty extensions string and a limit of 0 are
falsy). The extensions branch here is the meaning of the comprehension at
line 122 read as a field lookup; at run time that line accesses f.rfilename
as an attribute of a dict entry, which raises - filter_files_run below models
what a call actually does. -/
def filter_files (files : List FileInfo) (extensions : Option String)
    (limit : Option Int) : List FileInfo :=
  let files1 :=
    match extensions with
    | some s =>
      if s = "" then files
      else files.filter
        (fun f => (parseExtList s).any (fun ext => endsWithStr (lowerStr f.rfilename) ext))
    | none => files
  match limit with
  | some l => if l = 0 then files1 else pySliceTo files1 l
  | none => files1

/-- What a call to filter_files does at run time. The manifest entries are
the dicts built by list_dataset_files, whose fields are read by subscripting
everywhere else (file_info at line 142, the dry-run print at line 245); but
line 122 reads f.rfilename by attribute access, which a dict does not
support. So with a truthy extensions argument and a non-empty manifest the
comprehension raises AttributeError at its first element, modelled as
Except.error; with a falsy extensions argument, or an empty manifest (the
comprehension never evaluates its condition), no attribute access happens and
the limit slice is returned as filter_files computes it on the
extensions-less path. -/
def filter_files_run (files : List FileInfo) (extensions : Option String)
    (limit : Option Int) : Except String (List FileInfo) :=
  match extensions with
  | some s =>
    if s = "" then Except.ok (filter_files files none limit)
    else
      match files with
      | [] => Except.ok (filter_files [] none limit)
      | _ :: _ => Except.error "AttributeError: dict object has no attribute rfilename"
  | none => Except.ok (filter_files files none limit)

/-- get_token from the source (lines 103-107): the CLI token wins when truthy
(non-None and non-empty), otherwise os.environ.get HF_TOKEN is returned. -/
def get_token (argsToken : Option String) (envHfToken : Option String) : Option String :=
  match argsToken with
  | some s => if s = "" then envHfToken else some s
  | none => envHfToken

/-- The (filename, success, message) tuple returned by download_file. -/
structure Outcome where
  filename : String
  success : Bool
  message : String
deriving DecidableEq

/-- The local filesystem, mapping a path to the byte content stored there. -/
def Fs : Type := String → Option (List Nat)

/-- Writing a full byte string at a path (mode wb: replaces any prior content). -/
def fsSet (fs : Fs) (p : String) (v : List Nat) : Fs :=
  fun q => if q = p then some v else fs q

/-- The empty local filesystem. -/
def fsEmpty : Fs := fun _ => none

/-- Result of requests.get plus raise_for_status for one URL: either the byte
stream of a 2xx response, or a requests.RequestException (which also covers
the HTTPError raised on a non-2xx status and timeouts). -/
inductive HttpResult where
  | ok (body : List Nat)
  | reqError (msg : String)
deriving DecidableEq

/-- The environment one download_file call runs against: whether mkdir of the
parent directory succeeds, the HTTP response for the URL, and whether the
open/write loop succeeds (keptBytes is how many bytes land on disk before an
IOError interrupts the write loop). -/
structure Env where
  mkdirOk : Bool
  mkdirErr : String
  http : HttpResult
  writeOk : Bool
  writeErr : String
  keptBytes : Nat
deriving DecidableEq

/-- pathlib output_dir / filename: an absolute filename replaces the anchor,
otherwise the two are joined with a separator. No normalization happens. -/
def pathJoin (outputDir : String) (filename : String) : String :=
  if strStartsWith filename "/" then filename else outputDir ++ "/" ++ filename

/-- The body of the try block of download_file (lines 148-167): issue the GET,
raise_for_status, stream the chunks into the file; RequestException and
IOError are caught and turned into failure outcomes. Returns the outcome
tuple together with the filesystem after the call. -/
def tryBody (f : FileInfo) (outputDir : String) (token : Option String)
    (verbose : Bool) (env : Env) (fs : Fs) : Outcome × Fs :=
  let filename := f.rfilename
  let path := pathJoin outputDir filename
  match env.http with
  | HttpResult.reqError e =>
    (⟨filename, false, "Failed: " ++ filename ++ " - " ++ e⟩, fs)
  | HttpResult.ok body =>
    if env.writeOk then
      (⟨filename, true, if verbose then "Downloaded: " ++ filename else ""⟩,
        fsSet fs path body)
    else
      (⟨filename, false, "IO Error: " ++ filename ++ " - " ++ env.writeErr⟩,
        fsSet fs path (body.take env.keptBytes))

/-- download_file from the source (lines 130-167). The mkdir of the parent
directory (line 146) happens before the try block, so its failure is an
uncaught OSError, modelled as Except.error; every path inside the try block
returns Except.ok with the outcome tuple. -/
def download_file (f : FileInfo) (outputDir : String) (token : Option String)
    (verbose : Bool) (env : Env) (fs : Fs) : Except String (Outcome × Fs) :=
  if env.mkdirOk then
    Except.ok (tryBody f outputDir token verbose env fs)
  else
    Except.error env.mkdirErr

/-- The outcome a worker hands back to the coordinator when it completes
(download_file's returned tuple; it does not depend on the filesystem state). -/
def workerOutcome (f : FileInfo) (outputDir : String) (token : Option String)
    (verbose : Bool) (env : Env) : Outcome :=
  (tryBody f outputDir token verbose env fsEmpty).1

/-- Path-safety analysis of the target path the worker writes to: split on the
separator, resolve dot-dot segments the way the operating system does when the
file is opened. -/
def normSegs (segs : List String) : List String :=
  segs.foldl
    (fun acc s =>
      if s = ".." then acc.dropLast
      else if s = "." then acc
      else acc ++ [s]) []

/-- The resolved component list of a path. -/
def resolvePath (p : String) : List String :=
  normSegs ((splitChar '/' p).filter (fun s => s ≠ ""))

/-- True when the resolved target does not stay under the resolved root. -/
def escapesRoot (root target : String) : Bool :=
  !((resolvePath root).isPrefixOf (resolvePath target))

/-- The mutable state of the collection loop in main: the two tally counters,
how many times the progress bar was advanced, and the messages printed. -/
structure LoopState where
  successCount : Nat
  failCount : Nat
  progressTicks : Nat
  printed : List String
deriving DecidableEq

/-- One iteration of the for-future-in-as_completed loop of main
(lines 268-281): bump the matching counter, print a failure message, then
either advance the progress bar or, when only verbose is on, print the
message. -/
def processFuture (progress verbose : Bool) (st : LoopState) (o : Outcome) : LoopState :=
  let st1 :=
    if o.success then
      { st with successCount := st.successCount + 1 }
    else
      let st' := { st with failCount := st.failCount + 1 }
      if o.message = "" then st' else { st' with printed := st'.printed ++ [o.message] }
  if progress then
    { st1 with progressTicks := st1.progressTicks + 1 }
  else if verbose ∧ o.message ≠ "" then
    { st1 with printed := st1.printed ++ [o.message] }
  else
    st1

/-- The whole collection loop of main, folded over the worker outcomes in
completion order. -/
def coordinatorLoop (progress verbose : Bool) (outcomes : List Outcome) : LoopState :=
  outcomes.foldl (processFuture progress verbose) ⟨0, 0, 0, []⟩

/-- What api.list_repo_files can come back with: a listing, or one of the
exceptions caught in list_dataset_files. -/
inductive ApiListing where
  | ok (files : List String)
  | repositoryNotFound
  | gatedRepo
  | otherError (msg : String)
deriving DecidableEq

/-- True on the three exception branches of list_dataset_files. -/
def ApiListing.failed : ApiListing → Bool
  | .ok _ => false
  | _ => true

/-- The loop of list_dataset_files (lines 179-193): every name starting with a
dot is skipped, the rest become rfilename/url dicts (urlOf stands for
hf_hub_url, an external library call). -/
def buildFileInfos (files : List String) (urlOf : String → String) : List FileInfo :=
  (files.filter (fun f => !(strStartsWith f "."))).map
    (fun f => { rfilename := f, url := urlOf f })

/-- list_dataset_files from the source (lines 170-205): the success path
builds the manifest, each caught exception ends in sys.exit 1, modelled as
Except.error with the exit code. -/
def list_dataset_files (res : ApiListing) (urlOf : String → String) :
    Except Nat (List FileInfo) :=
  match res with
  | .ok files => Except.ok (buildFileInfos files urlOf)
  | .repositoryNotFound => Except.error 1
  | .gatedRepo => Except.error 1
  | .otherError _ => Except.error 1

/-- The process exit code of main (lines 208-289) as a function of the
listing result, the filter configuration and the per-worker environments:
sys.exit 1 inside list_dataset_files on a listing failure; sys.exit 0 on an
empty manifest; an uncaught AttributeError out of filter_files (line 234 via
line 122) kills the interpreter with exit code 1; sys.exit 0 when nothing
matches and on dry-run; in the collection loop future.result() at line 269
re-raises a worker's uncaught mkdir OSError, crashing main with exit code 1;
otherwise main falls off the end and the process exits 0, whatever the
per-file success or failure outcomes were. -/
def mainExitCode (res : ApiListing) (urlOf : String → String)
    (extensions : Option String) (limit : Option Int) (dryRun : Bool)
    (envOf : FileInfo → Env) : Nat :=
  match list_dataset_files res urlOf with
  | Except.error code => code
  | Except.ok files =>
    if files.isEmpty then 0
    else
      match filter_files_run files extensions limit with
      | Except.error _ => 1
      | Except.ok filtered =>
        if filtered.isEmpty then 0
        else if dryRun then 0
        else if filtered.all (fun f => (envOf f).mkdirOk) then 0 else 1

/-! Helper lemmas. -/

theorem tryBody_filename (f : FileInfo) (dir : String) (tok : Option String)
    (v : Bool) (env : Env) (fs : Fs) :
    (tryBody f dir tok v env fs).1.filename = f.rfilename := by
  unfold tryBody
  cases env.http <;> by_cases hw : env.writeOk <;> simp [hw]

theorem fsSet_idem (fs : Fs) (p : String) (b : List Nat) :
    fsSet (fsSet fs p b) p b = fsSet fs p b := by
  funext q
  by_cases h : q = p <;> simp [fsSet, h]

theorem processFuture_counts (p v : Bool) (st : LoopState) (o : Outcome) :
    (processFuture p v st o).successCount + (processFuture p v st o).failCount
      = st.successCount + st.failCount + 1 := by
  unfold processFuture
  by_cases hs : o.success <;> by_cases hm : o.message = "" <;>
    by_cases hp : p <;> by_cases hv : v <;>
    simp [hs, hm, hp, hv] <;> omega

theorem coordinatorLoop_counts_aux (p v : Bool) (outcomes : List Outcome)
    (st : LoopState) :
    (outcomes.foldl (processFuture p v) st).successCount
      + (outcomes.foldl (processFuture p v) st).failCount
      = st.successCount + st.failCount + outcomes.length := by
  induction outcomes generalizing st with
  | nil => simp
  | cons o os ih =>
    have h1 := processFuture_counts p v st o
    have h2 := ih (processFuture p v st o)
    simp only [List.foldl_cons, List.length_cons] at *
    omega

theorem processFuture_tick (v : Bool) (st : LoopState) (o : Outcome) :
    (processFuture true v st o).progressTicks = st.progressTicks + 1 := by
  unfold processFuture
  by_cases hs : o.success <;> by_cases hm : o.message = "" <;> simp [hs, hm]

theorem coordinatorLoop_ticks_aux (v : Bool) (outcomes : List Outcome)
    (st : LoopState) :
    (outcomes.foldl (processFuture true v) st).progressTicks
      = st.progressTicks + outcomes.length := by
  induction outcomes generalizing st with
  | nil => simp
  | cons o os ih =>
    have h1 := processFuture_tick v st o
    have h2 := ih (processFuture true v st o)
    simp only [List.foldl_cons, List.length_cons] at *
    omega

/-! Claim theorems. -/

/-- C3 counterexample: the claim demands length min(len M, L) for every
L >= 0, but the source guard is the truthiness test "if limit:", so limit 0
is treated as unset: on a one-element manifest with limit 0 the result still
has length 1 while min 1 0 = 0. -/
theorem filter_limit_zero_counterexample :
    (filter_files [⟨"a", "u"⟩] none (some 0)).length = 1 ∧
    min ([(⟨"a", "u"⟩ : FileInfo)].length) ((0 : Int)).toNat = 0 :=
  ⟨rfl, rfl⟩

/-- C3 (amended): for every limit L >= 1 the result is the first L elements
of the post-filter list, so with no extension filter its length is
min(len M, L); with the limit unset the whole manifest survives. Limit 0
falls into the falsy branch and behaves like an unset limit. -/
theorem filter_limit_truncation (M : List FileInfo) (E : Option String) (L : Int)
    (hL : 1 ≤ L) :
    filter_files M E (some L) = (filter_files M E none).take L.toNat ∧
    (filter_files M none (some L)).length = min M.length L.toNat ∧
    (filter_files M none none).length = M.length := by
  have hne : ¬ L = 0 := by omega
  have hnneg : ¬ L < 0 := by omega
  refine ⟨?_, ?_, rfl⟩
  · simp [filter_files, pySliceTo, hne, hnneg]
  · have h : filter_files M none (some L) = M.take L.toNat := by
      simp [filter_files, pySliceTo, hne, hnneg]
    rw [h, List.length_take]
    omega

/-- C3 witness: the amended statement at a concrete two-element manifest with
limit 1. -/
theorem filter_limit_truncation_witness :
    filter_files [⟨"a", "u"⟩, ⟨"b", "v"⟩] none (some 1)
        = ([⟨"a", "u"⟩, ⟨"b", "v"⟩] : List FileInfo).take ((1 : Int)).toNat ∧
    (filter_files [⟨"a", "u"⟩, ⟨"b", "v"⟩] none (some 1)).length
        = min ([⟨"a", "u"⟩, ⟨"b", "v"⟩] : List FileInfo).length ((1 : Int)).toNat ∧
    (filter_files [⟨"a", "u"⟩, ⟨"b", "v"⟩] none none).length
        = ([⟨"a", "u"⟩, ⟨"b", "v"⟩] : List FileInfo).length :=
  filter_limit_truncation [⟨"a", "u"⟩, ⟨"b", "v"⟩] none 1 (by decide)

/-- C5: the extension filter the claim describes never runs to completion on
this program's own manifest entries: line 122 reads f.rfilename by attribute
access, but the entries are dicts (subscripted everywhere else), so with a
truthy extensions argument every non-empty manifest makes filter_files raise
AttributeError instead of returning the matching subsequence. Only the empty
manifest and the extensions-less path return a value, and the latter agrees
with the intended list. -/
theorem filter_files_attribute_error :
    filter_files_run [⟨"a.png", "u"⟩] (some ".png") none
      = Except.error "AttributeError: dict object has no attribute rfilename" ∧
    filter_files_run ([] : List FileInfo) (some ".png") none
      = Except.ok ([] : List FileInfo) ∧
    filter_files_run [⟨"a.png", "u"⟩] none (some 1)
      = Except.ok (filter_files [⟨"a.png", "u"⟩] none (some 1)) :=
  ⟨rfl, rfl, rfl⟩

/-- C10: get_token returns the command-line token exactly when it is a
non-empty string, and falls back to the HF_TOKEN environment value both when
the argument is absent and when it is the empty string. -/
theorem get_token_resolution (s : String) (env : Option String) (h : ¬ s = "") :
    get_token (some s) env = some s ∧
    get_token (some "") env = env ∧
    get_token none env = env := by
  refine ⟨?_, rfl, rfl⟩
  simp [get_token, h]

/-- C10 witness: concrete CLI and environment tokens. -/
theorem get_token_resolution_witness :
    get_token (some "cli-token") (some "env-token") = some "cli-token" ∧
    get_token (some "") (some "env-token") = some "env-token" ∧
    get_token none (some "env-token") = some "env-token" :=
  get_token_resolution "cli-token" (some "env-token") (by decide)

/-- C9: the listing loop drops every repository file whose name starts with a
dot, so no manifest entry is hidden, and every non-hidden repository file
appears in the manifest with its url. -/
theorem hidden_files_never_listed (repoFiles : List String) (urlOf : String → String) :
    list_dataset_files (ApiListing.ok repoFiles) urlOf
        = Except.ok (buildFileInfos repoFiles urlOf) ∧
    (∀ fi ∈ buildFileInfos repoFiles urlOf, strStartsWith fi.rfilename "." = false) ∧
    (∀ f ∈ repoFiles, strStartsWith f "." = false →
        FileInfo.mk f (urlOf f) ∈ buildFileInfos repoFiles urlOf) := by
  refine ⟨rfl, ?_, ?_⟩
  · intro fi hfi
    simp only [buildFileInfos, List.mem_map, List.mem_filter] at hfi
    obtain ⟨f, ⟨hf, hdot⟩, rfl⟩ := hfi
    simpa using hdot
  · intro f hf hdot
    simp only [buildFileInfos, List.mem_map, List.mem_filter]
    exact ⟨f, ⟨hf, by simp [hdot]⟩, rfl⟩

/-- C9 witness: a listing holding .gitattributes and data.csv keeps only the
latter. -/
theorem hidden_files_never_listed_witness :
    list_dataset_files (ApiListing.ok [".gitattributes", "data.csv"]) (fun _ => "u")
        = Except.ok (buildFileInfos [".gitattributes", "data.csv"] (fun _ => "u")) ∧
    strStartsWith (FileInfo.mk "data.csv" "u").rfilename "." = false ∧
    FileInfo.mk "data.csv" "u"
        ∈ buildFileInfos [".gitattributes", "data.csv"] (fun _ => "u") := by
  have h := hidden_files_never_listed [".gitattributes", "data.csv"] (fun _ => "u")
  exact ⟨h.1, h.2.1 ⟨"data.csv", "u"⟩ (by decide), h.2.2 "data.csv" (by decide) (by decide)⟩

/-- C6 counterexample: a listing of a.png with filter .png is a successful
listing with a matching file, so the claim demands completion and exit code
0; but the attribute access at line 122 raises AttributeError over the dict
entry before any matching is decided, and the interpreter dies with exit
code 1 without ever reaching the no-match check or the download loop. -/
theorem exit_code_filter_crash_counterexample :
    filter_files_run (buildFileInfos ["a.png"] (fun _ => "u")) (some ".png") none
      = Except.error "AttributeError: dict object has no attribute rfilename" ∧
    mainExitCode (ApiListing.ok ["a.png"]) (fun _ => "u") (some ".png") none false
        (fun _ => ⟨true, "", HttpResult.ok [1], true, "", 0⟩) = 1 :=
  ⟨rfl, rfl⟩

/-- C6 (amended): the exit code is 1 exactly on a manifest-listing failure, on
the AttributeError a truthy extension filter raises over a non-empty
manifest, and on a worker mkdir OSError re-raised by future.result in the
collection loop; every other run exits 0: an empty manifest, an empty filter
result, dry-run, and completing the download loop, whatever mix of per-file
transfer successes and failures the workers returned. -/
theorem exit_code_characterization (urlOf : String → String)
    (extensions : Option String) (limit : Option Int) (dryRun : Bool)
    (envOf : FileInfo → Env) (res : ApiListing) (files : List String) :
    (res.failed = true →
        mainExitCode res urlOf extensions limit dryRun envOf = 1) ∧
    ((buildFileInfos files urlOf).isEmpty = true →
        mainExitCode (ApiListing.ok files) urlOf extensions limit dryRun envOf = 0) ∧
    ((buildFileInfos files urlOf).isEmpty = false →
      ∀ e, filter_files_run (buildFileInfos files urlOf) extensions limit
          = Except.error e →
        mainExitCode (ApiListing.ok files) urlOf extensions limit dryRun envOf = 1) ∧
    (∀ filtered, (buildFileInfos files urlOf).isEmpty = false →
      filter_files_run (buildFileInfos files urlOf) extensions limit
          = Except.ok filtered →
      filtered.isEmpty = true →
        mainExitCode (ApiListing.ok files) urlOf extensions limit dryRun envOf = 0) ∧
    (∀ filtered, (buildFileInfos files urlOf).isEmpty = false →
      filter_files_run (buildFileInfos files urlOf) extensions limit
          = Except.ok filtered →
      filtered.isEmpty = false → dryRun = true →
        mainExitCode (ApiListing.ok files) urlOf extensions limit dryRun envOf = 0) ∧
    (∀ filtered, (buildFileInfos files urlOf).isEmpty = false →
      filter_files_run (buildFileInfos files urlOf) extensions limit
          = Except.ok filtered →
      filtered.isEmpty = false → dryRun = false →
      filtered.all (fun f => (envOf f).mkdirOk) = true →
        mainExitCode (ApiListing.ok files) urlOf extensions limit dryRun envOf = 0) ∧
    (∀ filtered, (buildFileInfos files urlOf).isEmpty = false →
      filter_files_run (buildFileInfos files urlOf) extensions limit
          = Except.ok filtered →
      filtered.isEmpty = false → dryRun = false →
      filtered.all (fun f => (envOf f).mkdirOk) = false →
        mainExitCode (ApiListing.ok files) urlOf extensions limit dryRun envOf = 1) := by
  refine ⟨?_, ?_, ?_, ?_, ?_, ?_, ?_⟩
  · intro h
    cases res with
    | ok fs0 => simp [ApiListing.failed] at h
    | repositoryNotFound => rfl
    | gatedRepo => rfl
    | otherError m => rfl
  · intro h
    simp [mainExitCode, list_dataset_files, h]
  · intro hne e he
    simp [mainExitCode, list_dataset_files, hne, he]
  · intro filtered hne hok hemp
    simp [mainExitCode, list_dataset_files, hne, hok, hemp]
  · intro filtered hne hok hemp hdry
    simp [mainExitCode, list_dataset_files, hne, hok, hemp, hdry]
  · intro filtered hne hok hemp hdry hall
    simp [mainExitCode, list_dataset_files, hne, hok, hemp, hdry, hall]
  · intro filtered hne hok hemp hdry hall
    simp [mainExitCode, list_dataset_files, hne, hok, hemp, hdry, hall]

/-- C6 witness: a gated listing exits 1; a completed run whose only transfer
failed with a network error still exits 0; a worker whose mkdir raises
crashes the run into exit 1. -/
theorem exit_code_characterization_witness :
    mainExitCode ApiListing.gatedRepo (fun _ => "u") none none false
        (fun _ => ⟨true, "", HttpResult.reqError "500", true, "", 0⟩) = 1 ∧
    mainExitCode (ApiListing.ok ["a.txt"]) (fun _ => "u") none none false
        (fun _ => ⟨true, "", HttpResult.reqError "500", true, "", 0⟩) = 0 ∧
    mainExitCode (ApiListing.ok ["a.txt"]) (fun _ => "u") none none false
        (fun _ => ⟨false, "boom", HttpResult.ok [1], true, "", 0⟩) = 1 := by
  refine ⟨?_, ?_, ?_⟩
  · exact (exit_code_characterization (fun _ => "u") none none false
        (fun _ => ⟨true, "", HttpResult.reqError "500", true, "", 0⟩)
        ApiListing.gatedRepo []).1 rfl
  · exact (exit_code_characterization (fun _ => "u") none none false
        (fun _ => ⟨true, "", HttpResult.reqError "500", true, "", 0⟩)
        (ApiListing.ok ["a.txt"]) ["a.txt"]).2.2.2.2.2.1
        [⟨"a.txt", "u"⟩] rfl rfl rfl rfl rfl
  · exact (exit_code_characterization (fun _ => "u") none none false
        (fun _ => ⟨false, "boom", HttpResult.ok [1], true, "", 0⟩)
        (ApiListing.ok ["a.txt"]) ["a.txt"]).2.2.2.2.2.2
        [⟨"a.txt", "u"⟩] rfl rfl rfl rfl rfl

/-- C2 counterexample: the claim says a local filesystem failure during
directory creation comes back through the return channel, but the mkdir at
line 146 sits before the try block, so its OSError propagates to the caller
instead of producing an outcome tuple. -/
theorem download_file_mkdir_raises :
    download_file ⟨"a.txt", "u"⟩ "data" none false
        ⟨false, "permission denied", HttpResult.ok [], true, "", 0⟩ fsEmpty
      = Except.error "permission denied" :=
  rfl

/-- C2 (amended): once the parent-directory creation has succeeded,
download_file always returns an outcome tuple and never raises: the filename
field names the file, a network or HTTP failure yields success false with a
Failed message carrying the filename and cause, a write failure yields success
false with an IO Error message, and a clean transfer yields success true. -/
theorem download_file_outcome_contract (f : FileInfo) (dir : String)
    (tok : Option String) (v : Bool) (env : Env) (fs : Fs)
    (hmk : env.mkdirOk = true) :
    download_file f dir tok v env fs = Except.ok (tryBody f dir tok v env fs) ∧
    (tryBody f dir tok v env fs).1.filename = f.rfilename ∧
    (∀ e, env.http = HttpResult.reqError e →
        (tryBody f dir tok v env fs).1.success = false ∧
        (tryBody f dir tok v env fs).1.message
          = "Failed: " ++ f.rfilename ++ " - " ++ e) ∧
    (∀ body, env.http = HttpResult.ok body → env.writeOk = false →
        (tryBody f dir tok v env fs).1.success = false ∧
        (tryBody f dir tok v env fs).1.message
          = "IO Error: " ++ f.rfilename ++ " - " ++ env.writeErr) ∧
    (∀ body, env.http = HttpResult.ok body → env.writeOk = true →
        (tryBody f dir tok v env fs).1.success = true) := by
  refine ⟨by simp [download_file, hmk], tryBody_filename f dir tok v env fs, ?_, ?_, ?_⟩
  · intro e he
    simp [tryBody, he]
  · intro body hb hw
    simp [tryBody, hb, hw]
  · intro body hb hw
    simp [tryBody, hb, hw]

/-- C2 witness: a 404 response at a concrete descriptor produces a failure
outcome through the return channel. -/
theorem download_file_outcome_contract_witness :
    download_file ⟨"a.txt", "u"⟩ "data" none false
        ⟨true, "", HttpResult.reqError "404 Client Error", true, "", 0⟩ fsEmpty
      = Except.ok (tryBody ⟨"a.txt", "u"⟩ "data" none false
          ⟨true, "", HttpResult.reqError "404 Client Error", true, "", 0⟩ fsEmpty) ∧
    (tryBody ⟨"a.txt", "u"⟩ "data" none false
        ⟨true, "", HttpResult.reqError "404 Client Error", true, "", 0⟩ fsEmpty).1.success
      = false ∧
    (tryBody ⟨"a.txt", "u"⟩ "data" none false
        ⟨true, "", HttpResult.reqError "404 Client Error", true, "", 0⟩ fsEmpty).1.message
      = "Failed: a.txt - 404 Client Error" := by
  have h := download_file_outcome_contract ⟨"a.txt", "u"⟩ "data" none false
      ⟨true, "", HttpResult.reqError "404 Client Error", true, "", 0⟩ fsEmpty rfl
  exact ⟨h.1, (h.2.2.1 "404 Client Error" rfl).1, (h.2.2.1 "404 Client Error" rfl).2⟩

/-- C4: the worker neither normalizes nor rejects traversal paths: joining the
destination root with the manifest-supplied relative path
images/../../evil.txt produces a target whose resolution leaves the root, the
transfer succeeds and the bytes are written at that escaping target; an
absolute manifest path even replaces the root outright. -/
theorem path_traversal_unchecked :
    download_file ⟨"images/../../evil.txt", "u"⟩ "data" none false
        ⟨true, "", HttpResult.ok [104, 105], true, "", 0⟩ fsEmpty
      = Except.ok (⟨"images/../../evil.txt", true, ""⟩,
          fsSet fsEmpty (pathJoin "data" "images/../../evil.txt") [104, 105]) ∧
    fsSet fsEmpty (pathJoin "data" "images/../../evil.txt") [104, 105]
        (pathJoin "data" "images/../../evil.txt") = some [104, 105] ∧
    escapesRoot "data" (pathJoin "data" "images/../../evil.txt") = true ∧
    pathJoin "data" "/etc/passwd" = "/etc/passwd" ∧
    escapesRoot "data" (pathJoin "data" "/etc/passwd") = true := by
  refine ⟨rfl, by simp [fsSet], by decide, by decide, by decide⟩

/-- C7: on a successful transfer the worker stores the full byte stream at
destinationRoot/relativePath, replacing whatever was there (mode wb, no
existing-file check: the stored value is the body whatever fs held before);
the outcome does not depend on the prior filesystem, and running the same
call again on the resulting filesystem returns the same outcome and leaves
the filesystem unchanged. -/
theorem download_success_overwrites (f : FileInfo) (dir : String)
    (tok : Option String) (v : Bool) (env : Env) (fs : Fs) (body : List Nat)
    (hmk : env.mkdirOk = true) (hh : env.http = HttpResult.ok body)
    (hw : env.writeOk = true) :
    download_file f dir tok v env fs
        = Except.ok (workerOutcome f dir tok v env,
            fsSet fs (pathJoin dir f.rfilename) body) ∧
    (workerOutcome f dir tok v env).success = true ∧
    fsSet fs (pathJoin dir f.rfilename) body (pathJoin dir f.rfilename) = some body ∧
    download_file f dir tok v env (fsSet fs (pathJoin dir f.rfilename) body)
        = Except.ok (workerOutcome f dir tok v env,
            fsSet fs (pathJoin dir f.rfilename) body) := by
  have htb : ∀ fs2 : Fs, tryBody f dir tok v env fs2
      = (⟨f.rfilename, true, if v then "Downloaded: " ++ f.rfilename else ""⟩,
          fsSet fs2 (pathJoin dir f.rfilename) body) := by
    intro fs2
    simp [tryBody, hh, hw]
  have hwo : workerOutcome f dir tok v env
      = ⟨f.rfilename, true, if v then "Downloaded: " ++ f.rfilename else ""⟩ := by
    simp [workerOutcome, htb fsEmpty]
  refine ⟨?_, by rw [hwo], by simp [fsSet], ?_⟩
  · simp [download_file, hmk, htb fs, hwo]
  · rw [download_file, if_pos hmk, htb (fsSet fs (pathJoin dir f.rfilename) body),
      fsSet_idem, hwo]

/-- C7 witness: a concrete successful download at x.bin, repeated on the
filesystem it produced. -/
theorem download_success_overwrites_witness :
    download_file ⟨"x.bin", "u"⟩ "out" none false
        ⟨true, "", HttpResult.ok [1, 2], true, "", 0⟩ fsEmpty
      = Except.ok (workerOutcome ⟨"x.bin", "u"⟩ "out" none false
            ⟨true, "", HttpResult.ok [1, 2], true, "", 0⟩,
          fsSet fsEmpty (pathJoin "out" "x.bin") [1, 2]) ∧
    (workerOutcome ⟨"x.bin", "u"⟩ "out" none false
        ⟨true, "", HttpResult.ok [1, 2], true, "", 0⟩).success = true ∧
    fsSet fsEmpty (pathJoin "out" "x.bin") [1, 2] (pathJoin "out" "x.bin")
      = some [1, 2] ∧
    download_file ⟨"x.bin", "u"⟩ "out" none false
        ⟨true, "", HttpResult.ok [1, 2], true, "", 0⟩
        (fsSet fsEmpty (pathJoin "out" "x.bin") [1, 2])
      = Except.ok (workerOutcome ⟨"x.bin", "u"⟩ "out" none false
            ⟨true, "", HttpResult.ok [1, 2], true, "", 0⟩,
          fsSet fsEmpty (pathJoin "out" "x.bin") [1, 2]) :=
  download_success_overwrites ⟨"x.bin", "u"⟩ "out" none false
    ⟨true, "", HttpResult.ok [1, 2], true, "", 0⟩ fsEmpty [1, 2] rfl rfl rfl

/-- C1: whatever nonempty bound the thread pool has, the collection loop sees
the worker outcomes in some completion order, that is, a permutation of one
outcome per submitted descriptor; the final tally satisfies
succeeded + failed = N and each descriptor's relative path occurs among the
collected outcome filenames exactly as often as it occurs among the
submitted descriptors. -/
theorem coordinator_tally_exact (files : List FileInfo) (dir : String)
    (tok : Option String) (progress verbose : Bool) (envOf : FileInfo → Env)
    (maxConcurrency : Nat) (hC : 1 ≤ maxConcurrency) (completed : List Outcome)
    (hperm : List.Perm completed
        (files.map (fun f => workerOutcome f dir tok verbose (envOf f)))) :
    (coordinatorLoop progress verbose completed).successCount
        + (coordinatorLoop progress verbose completed).failCount = files.length ∧
    ∀ p : String, (completed.map Outcome.filename).count p
        = (files.map FileInfo.rfilename).count p := by
  have hlen : completed.length = files.length := by
    simpa using hperm.length_eq
  constructor
  · have h := coordinatorLoop_counts_aux progress verbose completed ⟨0, 0, 0, []⟩
    simpa [coordinatorLoop, hlen] using h
  · intro p
    have hmap : List.Perm (completed.map Outcome.filename)
        ((files.map (fun f => workerOutcome f dir tok verbose (envOf f))).map
          Outcome.filename) := hperm.map _
    have hcomp : (Outcome.filename ∘ fun f => workerOutcome f dir tok verbose (envOf f))
        = FileInfo.rfilename :=
      funext fun f => tryBody_filename f dir tok verbose (envOf f) fsEmpty
    have heq : (files.map (fun f => workerOutcome f dir tok verbose (envOf f))).map
        Outcome.filename = files.map FileInfo.rfilename := by
      rw [List.map_map, hcomp]
    rw [← heq]
    exact hmap.count_eq p

/-- C1 witness: two descriptors collected in reversed completion order with a
pool bound of 8 still tally to 2 and keep each path exactly once. -/
theorem coordinator_tally_exact_witness :
    (coordinatorLoop false false
        (([⟨"a.png", "u1"⟩, ⟨"b.png", "u2"⟩] : List FileInfo).map
          (fun f => workerOutcome f "out" none false
            ⟨true, "", HttpResult.ok [1], true, "", 0⟩)).reverse).successCount
      + (coordinatorLoop false false
        (([⟨"a.png", "u1"⟩, ⟨"b.png", "u2"⟩] : List FileInfo).map
          (fun f => workerOutcome f "out" none false
            ⟨true, "", HttpResult.ok [1], true, "", 0⟩)).reverse).failCount
      = ([⟨"a.png", "u1"⟩, ⟨"b.png", "u2"⟩] : List FileInfo).length ∧
    ((([⟨"a.png", "u1"⟩, ⟨"b.png", "u2"⟩] : List FileInfo).map
          (fun f => workerOutcome f "out" none false
            ⟨true, "", HttpResult.ok [1], true, "", 0⟩)).reverse.map
        Outcome.filename).count "a.png"
      = (([⟨"a.png", "u1"⟩, ⟨"b.png", "u2"⟩] : List FileInfo).map
          FileInfo.rfilename).count "a.png" := by
  have h := coordinator_tally_exact [⟨"a.png", "u1"⟩, ⟨"b.png", "u2"⟩] "out" none
      false false
      (fun _ => ⟨true, "", HttpResult.ok [1], true, "", 0⟩) 8 (by decide)
      (([⟨"a.png", "u1"⟩, ⟨"b.png", "u2"⟩] : List FileInfo).map
          (fun f => workerOutcome f "out" none false
            ⟨true, "", HttpResult.ok [1], true, "", 0⟩)).reverse
      (List.reverse_perm _)
  exact ⟨h.1, h.2 "a.png"⟩

/-- C8: with the progress bar enabled, one loop iteration advances the bar by
exactly one whatever the outcome and whatever the verbose flag (the verbose
print sits on the elif branch), and a full run over the collected outcomes
advances it exactly once per outcome. -/
theorem progress_incremented_once (verbose : Bool) (st : LoopState) (o : Outcome)
    (outcomes : List Outcome) :
    (processFuture true verbose st o).progressTicks = st.progressTicks + 1 ∧
    (coordinatorLoop true verbose outcomes).progressTicks = outcomes.length := by
  refine ⟨processFuture_tick verbose st o, ?_⟩
  simpa [coordinatorLoop] using coordinatorLoop_ticks_aux verbose outcomes ⟨0, 0, 0, []⟩
